import Mathlib

/-!
Verification of the arcade-physics X-axis separation resolver
(src/physics/arcade/SeparateX.js).

The resolver is embedded shallowly: JS numbers are modelled as real
numbers, body state as a Lean structure, and the single call to
`SeparateX` as a pure function from the pre-call state of the two
bodies (plus the probe result) to their post-call state together with
the returned boolean (modelled as a `Prop`).

The overlap probe (`GetOverlapX`) and the `Body` class are external to
the repository snapshot (only `SeparateX.js` is present), so the probe
output is taken as an input (`CollisionInfo`) and the handful of `Body`
methods the resolver calls are modelled from the specification; each
such definition carries a doc comment saying so.

The live `console.log(this.world._frame, ...)` on the early-exit path
dereferences `this.world`; the receiver is modelled as an
`Option Nat` (the `_frame` value when a bound receiver supplies a
world object), and the result type is `Except Unit SepResult` so that
the fault is an `error` value.
-/

namespace Arcade

noncomputable section
open Classical

/-- A two-component vector of JS numbers, used for velocity, bounce and
the per-axis minimum-velocity thresholds. -/
structure Vec2 where
  x : ℝ
  y : ℝ

/-- Modelled from the spec: the constants of `const.js` (not in the
snapshot). Only distinctness of the values matters. `STATIC_BODY` is
the physics type of a static body. -/
def STATIC_BODY : Nat := 0

/-- Modelled from the spec: the physics type of a dynamic body. -/
def DYNAMIC_BODY : Nat := 1

/-- Modelled from the spec: the contact-face constant meaning that the
left face of body 1 touches body 2 (body 2 lies to the left of
body 1). -/
def FACING_LEFT : Nat := 10

/-- Modelled from the spec: the opposing contact-face constant. -/
def FACING_RIGHT : Nat := 11

/-- The fields of the external `Body` state container that the resolver
reads or writes: position, velocity, bounce, mass, immovability, the
per-axis separation opt-out, the sleeping flag with its minimum-velocity
threshold, the rideable, moves and embedded flags, and the per-direction
blocked state with the identity of the blocking body. -/
structure Body where
  id : Nat
  x : ℝ
  y : ℝ
  velocity : Vec2
  bounce : Vec2
  minVelocity : Vec2
  mass : ℝ
  physicsType : Nat
  immovable : Bool
  customSeparateX : Bool
  embedded : Bool
  sleeping : Bool
  moves : Bool
  rideable : Bool
  blockedLeft : Bool
  blockedRight : Bool
  blockedLeftBy : Option Nat
  blockedRightBy : Option Nat

/-- Modelled from the spec: `Body#isBlockedLeft` — the per-direction
blocked query for the left face. -/
def Body.isBlockedLeft (b : Body) : Prop := b.blockedLeft = true

/-- Modelled from the spec: `Body#isBlockedRight` — the per-direction
blocked query for the right face. -/
def Body.isBlockedRight (b : Body) : Prop := b.blockedRight = true

/-- Modelled from the spec: `Body#isBlockedX` — blocked on the X axis,
i.e. on either horizontal face. -/
def Body.isBlockedX (b : Body) : Prop := b.isBlockedLeft ∨ b.isBlockedRight

/-- Modelled from the spec: `Body#movingX` — the per-axis moving
predicate: a nonzero X velocity component and not currently blocked in
that direction. -/
def Body.movingX (b : Body) : Prop :=
  b.velocity.x ≠ 0 ∧ ¬(b.velocity.x < 0 ∧ b.isBlockedLeft) ∧
    ¬(0 < b.velocity.x ∧ b.isBlockedRight)

/-- The collision information produced by the external overlap probe
`GetOverlapX` for one pair on one axis. The overlap magnitude is read
from the field literally named `overlapY` in the shared result
structure, exactly as the source does. -/
structure CollisionInfo where
  overlapY : ℝ
  face : Nat
  intersects : Bool
  share1 : ℝ
  share2 : ℝ

/-- Modelled from the spec: `Body#setBlockedLeft` — mark the body
blocked on its left face, recording the blocking body. -/
def Body.setBlockedLeft (b : Body) (_info : CollisionInfo) (other : Body) : Body :=
  { b with blockedLeft := true, blockedLeftBy := some other.id }

/-- Modelled from the spec: `Body#setBlockedRight` — mark the body
blocked on its right face, recording the blocking body. -/
def Body.setBlockedRight (b : Body) (_info : CollisionInfo) (other : Body) : Body :=
  { b with blockedRight := true, blockedRightBy := some other.id }

/-- Modelled from the spec: `Body#getMoveX` — the body is translated by
exactly the apportioned amount handed to it ("translate its position by
its apportioned share of the overlap along the axis"). -/
def Body.getMoveX (_b : Body) (amount : ℝ) : ℝ := amount

/-- Modelled from the spec: `Body#wake` — a sleeping body wakes. -/
def Body.wake (b : Body) : Body := { b with sleeping := false }

/-- The velocity-resolution step of `SeparateX` (lines 69-173): the
four-way branch on the pair of moving predicates, producing the
resolved velocities `(nx1, nx2)` before damping and blocking. -/
def resolveVelocity (leftFace : Prop) (body1 body2 : Body) : ℝ × ℝ :=
  let x1 := body1.velocity.x
  let x2 := body2.velocity.x
  if body1.movingX ∧ body2.movingX then
    let mass1 := body1.mass
    let mass2 := body2.mass
    let bnx1 :=
      if mass1 = mass2 then |x2| * (if 0 < x2 then 1 else -1)
      else Real.sqrt ((x2 * x2 * mass2) / mass1) * (if 0 < x2 then 1 else -1)
    let bnx2 :=
      if mass1 = mass2 then |x1| * (if 0 < x1 then 1 else -1)
      else Real.sqrt ((x1 * x1 * mass1) / mass2) * (if 0 < x1 then 1 else -1)
    let avg := (bnx1 + bnx2) * 0.5
    (avg + (bnx1 - avg) * body1.bounce.x, avg + (bnx2 - avg) * body2.bounce.x)
  else if ¬body1.movingX ∧ body2.movingX then
    (x1, if body1.rideable = true then (if leftFace then 1 else -1)
         else x1 - x2 * body2.bounce.x)
  else if body1.movingX ∧ ¬body2.movingX then
    ((if body2.rideable = true then (if leftFace then 1 else -1)
      else x2 - x1 * body1.bounce.x), x2)
  else
    (0, 0)

/-- The flip-flop damping step (lines 189-202) for one body: a resolved
velocity that reverses the sign of the pre-resolution velocity and
falls below the minimum-velocity threshold of a non-sleeping body is
snapped to zero. -/
def flipDamp (b : Body) (x nx : ℝ) : ℝ :=
  if ¬(b.sleeping = true) ∧ ((x < 0 ∧ 0 < nx) ∨ (0 < x ∧ nx < 0)) ∧
      |nx| < b.minVelocity.x then 0 else nx

/-- The position-correction and blocked-face step for body 1
(lines 207-282), returning the updated body 1 and possibly re-zeroed
`nx1`. Note that the source translates the `y` coordinate, that the
stationary branch tests `isBlockedRight` on both faces, and that the
obstruction zeroing requires `sleeping` on the negative side only
(JS operator precedence): all three are kept exactly as written. -/
def posBlock1 (leftFace : Prop) (info : CollisionInfo) (body1 body2 : Body)
    (nx1 totalA : ℝ) : Body × ℝ :=
  if nx1 ≠ 0 then
    let b1 :=
      if leftFace then
        if body2.isBlockedLeft then body1.setBlockedLeft info body2
        else { body1 with y := body1.y + body1.getMoveX totalA }
      else
        if body2.isBlockedRight then body1.setBlockedRight info body2
        else { body1 with y := body1.y + body1.getMoveX totalA }
    let nx1 :=
      if (b1.sleeping = true ∧ nx1 < 0 ∧ b1.isBlockedLeft) ∨
          (0 < nx1 ∧ b1.isBlockedRight) then 0 else nx1
    (b1, nx1)
  else if body1.moves = true then
    if leftFace then
      let b1 :=
        if totalA ≠ 0 ∧ ¬body1.isBlockedRight then
          { body1 with y := body1.y + body1.getMoveX totalA } else body1
      let b1 := if body2.isBlockedLeft then b1.setBlockedLeft info body2 else b1
      (b1, nx1)
    else
      let b1 :=
        if totalA ≠ 0 ∧ ¬body1.isBlockedRight then
          { body1 with y := body1.y + body1.getMoveX totalA } else body1
      let b1 := if body2.isBlockedRight then b1.setBlockedRight info body2 else b1
      (b1, nx1)
  else (body1, nx1)

/-- The position-correction and blocked-face step for body 2
(lines 284-358), given the already-updated body 1. -/
def posBlock2 (leftFace : Prop) (info : CollisionInfo) (body1 body2 : Body)
    (nx2 totalB : ℝ) : Body × ℝ :=
  if nx2 ≠ 0 then
    let b2 :=
      if leftFace then
        if body1.isBlockedRight then body2.setBlockedRight info body1
        else { body2 with y := body2.y + body2.getMoveX totalB }
      else
        if body1.isBlockedLeft then body2.setBlockedLeft info body1
        else { body2 with y := body2.y + body2.getMoveX totalB }
    let nx2 :=
      if (b2.sleeping = true ∧ nx2 < 0 ∧ b2.isBlockedLeft) ∨
          (0 < nx2 ∧ b2.isBlockedRight) then 0 else nx2
    (b2, nx2)
  else if body2.moves = true then
    if leftFace then
      let b2 :=
        if totalB ≠ 0 ∧ ¬body2.isBlockedRight then
          { body2 with y := body2.y + body2.getMoveX totalB } else body2
      let b2 := if body1.isBlockedRight then b2.setBlockedRight info body1 else b2
      (b2, nx2)
    else
      let b2 :=
        if totalB ≠ 0 ∧ ¬body2.isBlockedLeft then
          { body2 with y := body2.y + body2.getMoveX totalB } else body2
      let b2 := if body1.isBlockedLeft then b2.setBlockedLeft info body1 else b2
      (b2, nx2)
  else (body2, nx2)

/-- The sleep-hysteresis step (lines 374-400) for one body: a sleeping
body either has the resolved velocity zeroed (below threshold) or is
woken. A non-sleeping body passes through unchanged. -/
def sleepCheck (b : Body) (nx : ℝ) : Body × ℝ :=
  if b.sleeping = true then
    if |nx| < b.minVelocity.x then (b, 0) else (b.wake, nx)
  else (b, nx)

/-- The outcome of one `SeparateX` call: the two updated bodies and the
returned boolean, modelled as a proposition. -/
structure SepResult where
  body1 : Body
  body2 : Body
  hit : Prop

/-- The body of `SeparateX` past the early exit (lines 68-409): velocity
resolution, the degenerate-contact shortcut, flip-flop damping, the two
position-correction and blocked-face steps, the blocked-X zeroing, the
sleep check and the final commit. Every path here returns true. -/
def separateCore (info : CollisionInfo) (body1 body2 : Body) : SepResult :=
  let overlap := info.overlapY
  let leftFace := info.face = FACING_LEFT
  let x1 := body1.velocity.x
  let x2 := body2.velocity.x
  let p := resolveVelocity leftFace body1 body2
  let totalA := info.share1
  let totalB := info.share2
  if totalA = 0 ∧ totalB = 0 ∧ overlap ≠ 0 then
    ⟨{ body1 with velocity := { body1.velocity with x := 0 } },
      { body2 with velocity := { body2.velocity with x := 0 } }, True⟩
  else
    let nx1 := flipDamp body1 x1 p.1
    let nx2 := flipDamp body2 x2 p.2
    let q1 := posBlock1 leftFace info body1 body2 nx1 totalA
    let q2 := posBlock2 leftFace info q1.1 body2 nx2 totalB
    let nnx1 := if q1.1.isBlockedX then 0 else q1.2
    let nnx2 := if q2.1.isBlockedX then 0 else q2.2
    let s1 := sleepCheck q1.1 nnx1
    let s2 := sleepCheck q2.1 nnx2
    ⟨{ s1.1 with velocity := { s1.1.velocity with x := s1.2 } },
      { s2.1 with velocity := { s2.1.velocity with x := s2.2 } }, True⟩

/-- The early-exit condition of lines 54-60: no intersection, or
overlap-only mode, or both bodies immovable (static type or immovable
flag), or either body deferring X separation to custom logic. -/
def earlyExitCond (info : CollisionInfo) (body1 body2 : Body)
    (overlapOnly : Bool) : Prop :=
  ¬(info.intersects = true) ∨ overlapOnly = true ∨
    ((body1.physicsType = STATIC_BODY ∨ body1.immovable = true) ∧
      (body2.physicsType = STATIC_BODY ∨ body2.immovable = true)) ∨
    body1.customSeparateX = true ∨ body2.customSeparateX = true

/-- The embedding of `SeparateX` (lines 29-409). The `world` argument
models the `this` binding: `some f` when a bound receiver supplies a
world object whose `_frame` is `f`, `none` otherwise, in which case the
live `console.log(this.world._frame, ...)` on the early-exit path
faults. The probe result `info` is the output of the external
`GetOverlapX`. -/
def SeparateX (world : Option Nat) (info : CollisionInfo)
    (body1 body2 : Body) (overlapOnly : Bool) : Except Unit SepResult :=
  if earlyExitCond info body1 body2 overlapOnly then
    match world with
    | none => Except.error ()
    | some _ =>
        Except.ok ⟨body1, body2,
          (info.intersects = true ∧ info.overlapY ≠ 0) ∨
            (body1.embedded = true ∧ body2.embedded = true)⟩
  else
    Except.ok (separateCore info body1 body2)

/-- The committed X velocities of the two bodies after a successful
call, used to state velocity-only properties. -/
def sepVelocities (e : Except Unit SepResult) : Option (ℝ × ℝ) :=
  match e with
  | Except.error _ => none
  | Except.ok r => some (r.body1.velocity.x, r.body2.velocity.x)

theorem SeparateX_eq_ite (world : Option Nat) (info : CollisionInfo)
    (b1 b2 : Body) (oo : Bool) :
    SeparateX world info b1 b2 oo =
      if earlyExitCond info b1 b2 oo then
        (match world with
          | none => Except.error ()
          | some _ =>
              Except.ok ⟨b1, b2,
                (info.intersects = true ∧ info.overlapY ≠ 0) ∨
                  (b1.embedded = true ∧ b2.embedded = true)⟩)
      else Except.ok (separateCore info b1 b2) := rfl

theorem SeparateX_early (world : Option Nat) (info : CollisionInfo)
    (b1 b2 : Body) (oo : Bool) (h : earlyExitCond info b1 b2 oo) :
    SeparateX world info b1 b2 oo =
      (match world with
        | none => Except.error ()
        | some _ =>
            Except.ok ⟨b1, b2,
              (info.intersects = true ∧ info.overlapY ≠ 0) ∨
                (b1.embedded = true ∧ b2.embedded = true)⟩) := by
  rw [SeparateX_eq_ite, if_pos h]

theorem SeparateX_core (world : Option Nat) (info : CollisionInfo)
    (b1 b2 : Body) (oo : Bool) (h : ¬earlyExitCond info b1 b2 oo) :
    SeparateX world info b1 b2 oo = Except.ok (separateCore info b1 b2) := by
  rw [SeparateX_eq_ite, if_neg h]

/-- A baseline dynamic body at rest: every flag clear, unit mass. -/
def baseBody : Body :=
  { id := 0, x := 0, y := 0, velocity := ⟨0, 0⟩, bounce := ⟨0, 0⟩,
    minVelocity := ⟨0, 0⟩, mass := 1, physicsType := DYNAMIC_BODY,
    immovable := false, customSeparateX := false, embedded := false,
    sleeping := false, moves := true, rideable := false,
    blockedLeft := false, blockedRight := false,
    blockedLeftBy := none, blockedRightBy := none }

/-- A probe result reporting no intersection. -/
def probeMiss : CollisionInfo :=
  { overlapY := 0, face := FACING_LEFT, intersects := false,
    share1 := 0, share2 := 0 }

/-- A body persistently marked embedded from a prior overlap. -/
def embBody : Body := { baseBody with embedded := true }

/-- A probe result with nonzero overlap but both shares zero. -/
def probeDegenerate : CollisionInfo :=
  { overlapY := 2, face := FACING_LEFT, intersects := true,
    share1 := 0, share2 := 0 }

/-- A dynamic body moving right at 3. -/
def movBody : Body := { baseBody with velocity := ⟨3, 1⟩ }

/-- C2: on every early-exit path invoked with a bound receiver (the
probe reports no intersection, or overlap-only mode, or both bodies
immovable, or either body opted out of X separation), `SeparateX`
returns both bodies unchanged in every field, and the returned flag is
true exactly when the probe reports an intersection with nonzero
overlap or both bodies are already marked embedded, and false
otherwise. -/
theorem earlyExit_no_mutation_return (f : Nat) (info : CollisionInfo)
    (b1 b2 : Body) (oo : Bool) (h : earlyExitCond info b1 b2 oo) :
    SeparateX (some f) info b1 b2 oo =
      Except.ok ⟨b1, b2,
        (info.intersects = true ∧ info.overlapY ≠ 0) ∨
          (b1.embedded = true ∧ b2.embedded = true)⟩ :=
  SeparateX_early (some f) info b1 b2 oo h

theorem earlyExit_no_mutation_return_w :
    SeparateX (some 3) probeMiss baseBody baseBody false =
      Except.ok ⟨baseBody, baseBody, False⟩ := by
  have h := earlyExit_no_mutation_return 3 probeMiss baseBody baseBody false
    (Or.inl (by simp [probeMiss]))
  simpa [probeMiss, baseBody] using h

/-- C10: on the early-exit path the live `console.log` dereferences
`this.world._frame`; when no bound receiver supplies a world object the
call faults instead of returning the documented boolean. -/
theorem earlyExit_unbound_receiver_faults (info : CollisionInfo)
    (b1 b2 : Body) (oo : Bool) (h : earlyExitCond info b1 b2 oo) :
    SeparateX none info b1 b2 oo = Except.error () :=
  SeparateX_early none info b1 b2 oo h

theorem earlyExit_unbound_receiver_faults_w :
    SeparateX none probeMiss baseBody baseBody false = Except.error () :=
  earlyExit_unbound_receiver_faults probeMiss baseBody baseBody false
    (Or.inl (by simp [probeMiss]))

/-- C7, counterexample: with no intersection but both bodies marked
embedded, the call returns true, not false as claimed. -/
theorem noIntersect_embedded_returns_true :
    SeparateX (some 0) probeMiss embBody embBody false =
      Except.ok ⟨embBody, embBody, True⟩ ∧
    SeparateX (some 0) probeMiss embBody embBody false ≠
      Except.ok ⟨embBody, embBody, False⟩ := by
  have h := SeparateX_early (some 0) probeMiss embBody embBody false
    (Or.inl (by simp [probeMiss]))
  constructor
  · simpa [probeMiss, embBody, baseBody] using h
  · rw [h]; simp [probeMiss, embBody, baseBody]

/-- C7, amended: whenever the probe reports no intersection, the call
leaves both bodies unchanged and returns true when both bodies are
already marked embedded and false otherwise. -/
theorem noIntersect_no_mutation (f : Nat) (info : CollisionInfo)
    (b1 b2 : Body) (oo : Bool) (h : info.intersects = false) :
    SeparateX (some f) info b1 b2 oo =
      Except.ok ⟨b1, b2, b1.embedded = true ∧ b2.embedded = true⟩ := by
  have h2 := SeparateX_early (some f) info b1 b2 oo (Or.inl (by simp [h]))
  rw [h2]; simp [h]

theorem noIntersect_no_mutation_w :
    SeparateX (some 0) probeMiss baseBody embBody true =
      Except.ok ⟨baseBody, embBody, False⟩ := by
  have h := noIntersect_no_mutation 0 probeMiss baseBody embBody true
    (by simp [probeMiss])
  simpa [baseBody, embBody] using h

/-- C8: past the early exit, when both apportioned shares are zero and
the overlap is nonzero, both X velocities are forced to zero, the call
returns true, and no other field of either body changes. -/
theorem degenerate_contact_zeroes_velocities (w : Option Nat)
    (info : CollisionInfo) (b1 b2 : Body) (oo : Bool)
    (h : ¬earlyExitCond info b1 b2 oo) (h1 : info.share1 = 0)
    (h2 : info.share2 = 0) (hov : info.overlapY ≠ 0) :
    SeparateX w info b1 b2 oo =
      Except.ok ⟨{ b1 with velocity := { b1.velocity with x := 0 } },
        { b2 with velocity := { b2.velocity with x := 0 } }, True⟩ := by
  rw [SeparateX_core w info b1 b2 oo h]
  simp only [separateCore]
  rw [if_pos ⟨h1, h2, hov⟩]

theorem degenerate_contact_zeroes_velocities_w :
    SeparateX (some 5) probeDegenerate movBody baseBody false =
      Except.ok
        ⟨{ movBody with velocity := { movBody.velocity with x := 0 } },
          { baseBody with velocity := { baseBody.velocity with x := 0 } },
          True⟩ :=
  degenerate_contact_zeroes_velocities (some 5) probeDegenerate movBody
    baseBody false
    (by simp [earlyExitCond, probeDegenerate, movBody, baseBody,
      DYNAMIC_BODY, STATIC_BODY])
    (by simp [probeDegenerate]) (by simp [probeDegenerate])
    (by norm_num [probeDegenerate])

/-- A sleeping body with X minimum-velocity threshold 2. -/
def slpBody : Body := { baseBody with sleeping := true, minVelocity := ⟨2, 0⟩ }

/-- C5, counterexample: a sleeping body whose resolved velocity equals
its threshold exactly is woken, although the velocity magnitude does
not exceed the threshold. -/
theorem sleep_wake_at_threshold :
    (sleepCheck slpBody 2).1.sleeping = false ∧ ¬(|(2:ℝ)| > 2) := by
  constructor
  · rw [sleepCheck, if_pos (by simp [slpBody, baseBody]), if_neg]
    · simp [Body.wake]
    · rw [abs_of_pos (by norm_num : (0:ℝ) < 2)]
      norm_num [slpBody, baseBody]
  · rw [abs_of_pos (by norm_num : (0:ℝ) < 2)]
    norm_num

/-- C5, amended: in the sleep-hysteresis step a sleeping body is woken
if and only if the magnitude of its resolved velocity is at least (not
strictly above) its minimum-velocity threshold; when it stays below the
threshold the velocity is forced to 0 and the body remains asleep, and
a body not flagged sleeping passes through entirely unchanged. -/
theorem sleep_hysteresis (b : Body) (nx : ℝ) :
    ((sleepCheck b nx).1.sleeping = false ↔
      (b.sleeping = false ∨ b.minVelocity.x ≤ |nx|)) ∧
    (b.sleeping = true → |nx| < b.minVelocity.x → sleepCheck b nx = (b, 0)) ∧
    (b.sleeping = true → b.minVelocity.x ≤ |nx| →
      sleepCheck b nx = (b.wake, nx)) ∧
    (b.sleeping = false → sleepCheck b nx = (b, nx)) := by
  refine ⟨?_, ?_, ?_, ?_⟩
  · by_cases hb : b.sleeping = true
    · by_cases hlt : |nx| < b.minVelocity.x
      · simp [sleepCheck, hb, hlt, not_le.mpr hlt]
      · simp [sleepCheck, hb, hlt, Body.wake, not_lt.mp hlt]
    · have hb' : b.sleeping = false := by simpa using hb
      simp [sleepCheck, hb', hb]
  · intro hb hlt
    simp [sleepCheck, hb, hlt]
  · intro hb hge
    simp [sleepCheck, hb, not_lt.mpr hge]
  · intro hb
    simp [sleepCheck, hb]

theorem sleep_hysteresis_w : sleepCheck slpBody 1 = (slpBody, 0) :=
  (sleep_hysteresis slpBody 1).2.1 (by simp [slpBody, baseBody])
    (by norm_num [slpBody, baseBody, abs_one])

/-- Stated from the words of the spec: the exchanged velocity of body i
is `sqrt(v_j^2 * mass_j / mass_i) * sign(v_j)`, j being the other
body. -/
def exchangedSpec (vj mj mi : ℝ) : ℝ :=
  Real.sqrt (vj ^ 2 * mj / mi) * Real.sign vj

/-- Stated from the words of the spec: with `avg` the mean of the two
exchanged velocities, the resolved velocity of body i is
`avg + (exchanged_i - avg) * bounce_i`. -/
def impulseSpec (e1 e2 bounce1 bounce2 : ℝ) : ℝ × ℝ :=
  ((e1 + e2) / 2 + (e1 - (e1 + e2) / 2) * bounce1,
   (e1 + e2) / 2 + (e2 - (e1 + e2) / 2) * bounce2)

theorem sqrt_sign_eq (x m2 m1 : ℝ) :
    Real.sqrt ((x * x * m2) / m1) * (if 0 < x then (1:ℝ) else -1) =
      Real.sqrt (x ^ 2 * m2 / m1) * Real.sign x := by
  rcases lt_trichotomy x 0 with hx | hx | hx
  · rw [if_neg (by linarith), Real.sign_of_neg hx, show x * x = x ^ 2 by ring]
  · subst hx
    simp
  · rw [if_pos hx, Real.sign_of_pos hx, show x * x = x ^ 2 by ring]

theorem abs_sign_eq (x : ℝ) :
    |x| * (if 0 < x then (1:ℝ) else -1) = |x| * Real.sign x := by
  rcases lt_trichotomy x 0 with hx | hx | hx
  · rw [if_neg (by linarith), Real.sign_of_neg hx]
  · subst hx
    simp
  · rw [if_pos hx, Real.sign_of_pos hx]

theorem exchangedSpec_equal_mass (x m : ℝ) (hm : 0 < m) :
    exchangedSpec x m m = |x| * Real.sign x := by
  rw [exchangedSpec, mul_div_assoc, div_self (ne_of_gt hm), mul_one,
    Real.sqrt_sq_eq_abs]

/-- C4: when both bodies satisfy the moving predicate, the velocity
resolution follows the documented mass-weighted exchange. With unequal
masses the exchanged velocity of body i is
`sqrt(v_j^2 * mass_j / mass_i) * sign(v_j)` and the resolved pair is
`avg + (exchanged_i - avg) * bounce_i` with `avg` the mean of the two
exchanged velocities; with equal masses each exchanged velocity is the
magnitude of the velocity of the other body carrying its sign, which
agrees with the general formula specialised to equal (positive)
masses. -/
theorem both_moving_impulse (lf : Prop) (b1 b2 : Body)
    (h1 : b1.movingX) (h2 : b2.movingX) :
    (b1.mass ≠ b2.mass →
      resolveVelocity lf b1 b2 =
        impulseSpec (exchangedSpec b2.velocity.x b2.mass b1.mass)
          (exchangedSpec b1.velocity.x b1.mass b2.mass)
          b1.bounce.x b2.bounce.x) ∧
    (b1.mass = b2.mass →
      resolveVelocity lf b1 b2 =
        impulseSpec (|b2.velocity.x| * Real.sign b2.velocity.x)
          (|b1.velocity.x| * Real.sign b1.velocity.x)
          b1.bounce.x b2.bounce.x) ∧
    (0 < b1.mass → b1.mass = b2.mass →
      exchangedSpec b2.velocity.x b2.mass b1.mass =
        |b2.velocity.x| * Real.sign b2.velocity.x ∧
      exchangedSpec b1.velocity.x b1.mass b2.mass =
        |b1.velocity.x| * Real.sign b1.velocity.x) := by
  have h05 : (0.5 : ℝ) = 1 / 2 := by norm_num
  refine ⟨?_, ?_, ?_⟩
  · intro hm
    simp only [resolveVelocity]
    rw [if_pos ⟨h1, h2⟩, if_neg hm, if_neg hm, sqrt_sign_eq, sqrt_sign_eq,
      h05, impulseSpec, exchangedSpec, exchangedSpec]
    simp only [Prod.mk.injEq]
    constructor <;> ring
  · intro hm
    simp only [resolveVelocity]
    rw [if_pos ⟨h1, h2⟩, if_pos hm, if_pos hm, abs_sign_eq, abs_sign_eq,
      h05, impulseSpec]
    simp only [Prod.mk.injEq]
    constructor <;> ring
  · intro hmpos hm
    rw [hm] at hmpos ⊢
    exact ⟨exchangedSpec_equal_mass _ _ hmpos,
      exchangedSpec_equal_mass _ _ hmpos⟩

/-- A light moving body for the unequal-mass sample. -/
def lightBody : Body :=
  { baseBody with velocity := ⟨-5, 0⟩, mass := 1, bounce := ⟨0.5, 0⟩ }

/-- A heavy moving body for the unequal-mass sample. -/
def heavyBody : Body :=
  { baseBody with velocity := ⟨3, 0⟩, mass := 4, bounce := ⟨0.25, 0⟩ }

theorem both_moving_impulse_w :
    resolveVelocity True lightBody heavyBody = (31 / 8, 11 / 16) := by
  have s1 : Real.sqrt ((3:ℝ) ^ 2 * 4 / 1) = 6 := by
    rw [show ((3:ℝ) ^ 2 * 4 / 1) = 6 ^ 2 by norm_num]
    exact Real.sqrt_sq (by norm_num)
  have s2 : Real.sqrt (((-5):ℝ) ^ 2 * 1 / 4) = 5 / 2 := by
    rw [show (((-5):ℝ) ^ 2 * 1 / 4) = (5 / 2) ^ 2 by norm_num]
    exact Real.sqrt_sq (by norm_num)
  have h := (both_moving_impulse True lightBody heavyBody
    (by norm_num [Body.movingX, Body.isBlockedLeft, Body.isBlockedRight,
      lightBody, baseBody])
    (by norm_num [Body.movingX, Body.isBlockedLeft, Body.isBlockedRight,
      heavyBody, baseBody])).1
    (by norm_num [lightBody, heavyBody, baseBody])
  rw [h]
  simp only [impulseSpec, exchangedSpec, lightBody, heavyBody, baseBody]
  rw [Real.sign_of_pos (by norm_num : (0:ℝ) < 3),
    Real.sign_of_neg (by norm_num : ((-5):ℝ) < 0), s1, s2]
  norm_num

/-- C6, amended: in the velocity-resolution step, when exactly one body
satisfies the moving predicate and the stationary body is flagged
rideable, the moving body receives resolved velocity 1 on a left-face
contact and -1 on a right-face contact — unit magnitude, pointing away
from the contact face under the sign convention of the spec — for
every bounce value; the later damping, blocking and sleep steps may
still zero it before commit. -/
theorem rideable_unit_nudge (lf : Prop) (b1 b2 : Body) :
    (¬b1.movingX → b2.movingX → b1.rideable = true →
      (resolveVelocity lf b1 b2).2 = (if lf then 1 else -1) ∧
        |(resolveVelocity lf b1 b2).2| = 1) ∧
    (b1.movingX → ¬b2.movingX → b2.rideable = true →
      (resolveVelocity lf b1 b2).1 = (if lf then 1 else -1) ∧
        |(resolveVelocity lf b1 b2).1| = 1) := by
  constructor
  · intro h1 h2 hr
    have he : (resolveVelocity lf b1 b2).2 = (if lf then 1 else -1) := by
      simp only [resolveVelocity]
      rw [if_neg (fun hc => h1 hc.1), if_pos ⟨h1, h2⟩, if_pos hr]
    refine ⟨he, ?_⟩
    rw [he]
    by_cases hlf : lf
    · rw [if_pos hlf, abs_one]
    · rw [if_neg hlf, abs_neg, abs_one]
  · intro h1 h2 hr
    have he : (resolveVelocity lf b1 b2).1 = (if lf then 1 else -1) := by
      simp only [resolveVelocity]
      rw [if_neg (fun hc => h2 hc.2), if_neg (fun hc => hc.1 h1),
        if_pos ⟨h1, h2⟩, if_pos hr]
    refine ⟨he, ?_⟩
    rw [he]
    by_cases hlf : lf
    · rw [if_pos hlf, abs_one]
    · rw [if_neg hlf, abs_neg, abs_one]

/-- A stationary rideable platform body outside physics control. -/
def ridePlatform : Body := { baseBody with rideable := true, moves := false }

theorem rideable_unit_nudge_w :
    (resolveVelocity True lightBody ridePlatform).1 = 1 ∧
      |(resolveVelocity True lightBody ridePlatform).1| = 1 := by
  have h := (rideable_unit_nudge True lightBody ridePlatform).2
    (by norm_num [Body.movingX, Body.isBlockedLeft, Body.isBlockedRight,
      lightBody, baseBody])
    (by simp [Body.movingX, ridePlatform, baseBody])
    (by simp [ridePlatform, baseBody])
  simpa using h

theorem abs_if_sign (x : ℝ) : |x| * (if 0 < x then (1:ℝ) else -1) = x := by
  rcases lt_trichotomy x 0 with hx | hx | hx
  · rw [if_neg (by linarith), abs_of_neg hx]
    ring
  · subst hx
    simp
  · rw [if_pos hx, abs_of_pos hx]
    ring

theorem resolveVelocity_equal_mass (lf : Prop) (b1 b2 : Body)
    (h1 : b1.movingX) (h2 : b2.movingX) (hm : b1.mass = b2.mass) :
    resolveVelocity lf b1 b2 =
      ((b2.velocity.x + b1.velocity.x) * 0.5 +
        (b2.velocity.x - (b2.velocity.x + b1.velocity.x) * 0.5) * b1.bounce.x,
       (b2.velocity.x + b1.velocity.x) * 0.5 +
        (b1.velocity.x - (b2.velocity.x + b1.velocity.x) * 0.5) * b2.bounce.x) := by
  simp only [resolveVelocity]
  rw [if_pos ⟨h1, h2⟩, if_pos hm, if_pos hm, abs_if_sign, abs_if_sign]

theorem flipDamp_zero (b : Body) (x : ℝ) : flipDamp b x 0 = 0 := by
  simp [flipDamp]

theorem posBlock1_free (lf : Prop) (info : CollisionInfo) (b1 b2 : Body)
    (nx t : ℝ) (hnx : nx ≠ 0) (hsl : b1.sleeping = false)
    (hbr : b1.blockedRight = false) (hbl2 : b2.blockedLeft = false)
    (hbr2 : b2.blockedRight = false) :
    posBlock1 lf info b1 b2 nx t =
      ({ b1 with y := b1.y + b1.getMoveX t }, nx) := by
  by_cases hlf : lf
  · simp [posBlock1, hnx, hlf, Body.isBlockedLeft, Body.isBlockedRight,
      hsl, hbr, hbl2, hbr2]
  · simp [posBlock1, hnx, hlf, Body.isBlockedLeft, Body.isBlockedRight,
      hsl, hbr, hbl2, hbr2]

theorem posBlock2_free (lf : Prop) (info : CollisionInfo) (b1 b2 : Body)
    (nx t : ℝ) (hnx : nx ≠ 0) (hsl : b2.sleeping = false)
    (hbr : b2.blockedRight = false) (hbl1 : b1.blockedLeft = false)
    (hbr1 : b1.blockedRight = false) :
    posBlock2 lf info b1 b2 nx t =
      ({ b2 with y := b2.y + b2.getMoveX t }, nx) := by
  by_cases hlf : lf
  · simp [posBlock2, hnx, hlf, Body.isBlockedLeft, Body.isBlockedRight,
      hsl, hbr, hbl1, hbr1]
  · simp [posBlock2, hnx, hlf, Body.isBlockedLeft, Body.isBlockedRight,
      hsl, hbr, hbl1, hbr1]

theorem posBlock1_zero_keeps (lf : Prop) (info : CollisionInfo)
    (b1 b2 : Body) (t : ℝ) (hbl2 : b2.blockedLeft = false)
    (hbr2 : b2.blockedRight = false) :
    (posBlock1 lf info b1 b2 0 t).2 = 0 ∧
    (posBlock1 lf info b1 b2 0 t).1.blockedLeft = b1.blockedLeft ∧
    (posBlock1 lf info b1 b2 0 t).1.blockedRight = b1.blockedRight ∧
    (posBlock1 lf info b1 b2 0 t).1.sleeping = b1.sleeping := by
  simp only [posBlock1, Body.isBlockedLeft, Body.isBlockedRight, hbl2, hbr2]
  split_ifs <;> simp_all

theorem posBlock2_zero_keeps (lf : Prop) (info : CollisionInfo)
    (b1 b2 : Body) (t : ℝ) (hbl1 : b1.blockedLeft = false)
    (hbr1 : b1.blockedRight = false) :
    (posBlock2 lf info b1 b2 0 t).2 = 0 ∧
    (posBlock2 lf info b1 b2 0 t).1.blockedLeft = b2.blockedLeft ∧
    (posBlock2 lf info b1 b2 0 t).1.blockedRight = b2.blockedRight ∧
    (posBlock2 lf info b1 b2 0 t).1.sleeping = b2.sleeping := by
  simp only [posBlock2, Body.isBlockedLeft, Body.isBlockedRight, hbl1, hbr1]
  split_ifs <;> simp_all

/-- A probe result with nonzero overlap apportioned entirely to the
first body. -/
def probeShare4 : CollisionInfo :=
  { overlapY := 2, face := FACING_LEFT, intersects := true,
    share1 := 4, share2 := 0 }

/-- C9, amended: two bodies of equal mass with equal-and-opposite X
velocities, both free to move; with bounce 1 on both, the committed
velocities are exactly swapped provided neither minimum-velocity
threshold exceeds the common speed (otherwise flip-flop damping zeroes
them first), and with bounce 0 on both, both are absorbed to 0
unconditionally. -/
theorem equal_mass_opposite_swap (f : Nat) (info : CollisionInfo)
    (b1 b2 : Body) (hi : info.intersects = true)
    (hpt1 : b1.physicsType = DYNAMIC_BODY)
    (hpt2 : b2.physicsType = DYNAMIC_BODY)
    (him1 : b1.immovable = false) (him2 : b2.immovable = false)
    (hcs1 : b1.customSeparateX = false) (hcs2 : b2.customSeparateX = false)
    (hm : b1.mass = b2.mass)
    (hx : b2.velocity.x = -b1.velocity.x) (hv : b1.velocity.x ≠ 0)
    (hbl1 : b1.blockedLeft = false) (hbr1 : b1.blockedRight = false)
    (hbl2 : b2.blockedLeft = false) (hbr2 : b2.blockedRight = false)
    (hsl1 : b1.sleeping = false) (hsl2 : b2.sleeping = false)
    (hdg : ¬(info.share1 = 0 ∧ info.share2 = 0 ∧ info.overlapY ≠ 0)) :
    (b1.bounce.x = 1 → b2.bounce.x = 1 →
      b1.minVelocity.x ≤ |b1.velocity.x| →
      b2.minVelocity.x ≤ |b1.velocity.x| →
      sepVelocities (SeparateX (some f) info b1 b2 false) =
        some (b2.velocity.x, b1.velocity.x)) ∧
    (b1.bounce.x = 0 → b2.bounce.x = 0 →
      sepVelocities (SeparateX (some f) info b1 b2 false) = some (0, 0)) := by
  have h05 : (0.5 : ℝ) = 1 / 2 := by norm_num
  have hearly : ¬earlyExitCond info b1 b2 false := by
    simp [earlyExitCond, hi, hpt1, hpt2, him1, him2, hcs1, hcs2,
      DYNAMIC_BODY, STATIC_BODY]
  have hmov1 : b1.movingX := by
    refine ⟨hv, ?_, ?_⟩ <;>
      simp [Body.isBlockedLeft, Body.isBlockedRight, hbl1, hbr1]
  have hmov2 : b2.movingX := by
    refine ⟨by rw [hx]; exact neg_ne_zero.mpr hv, ?_, ?_⟩ <;>
      simp [Body.isBlockedLeft, Body.isBlockedRight, hbl2, hbr2]
  constructor
  · intro hb1 hb2 hmin1 hmin2
    have hres : resolveVelocity (info.face = FACING_LEFT) b1 b2 =
        (b2.velocity.x, b1.velocity.x) := by
      rw [resolveVelocity_equal_mass _ b1 b2 hmov1 hmov2 hm, hb1, hb2, hx,
        h05]
      simp only [Prod.mk.injEq]
      constructor <;> ring
    have hnx1 : b2.velocity.x ≠ 0 := by
      rw [hx]
      exact neg_ne_zero.mpr hv
    have hfd1 : flipDamp b1 b1.velocity.x b2.velocity.x = b2.velocity.x := by
      have hc : ¬(|b2.velocity.x| < b1.minVelocity.x) := by
        rw [hx, abs_neg]
        exact not_lt.mpr hmin1
      rw [flipDamp, if_neg (fun hcc => hc hcc.2.2)]
    have hfd2 : flipDamp b2 b2.velocity.x b1.velocity.x = b1.velocity.x := by
      have hc : ¬(|b1.velocity.x| < b2.minVelocity.x) := not_lt.mpr hmin2
      rw [flipDamp, if_neg (fun hcc => hc hcc.2.2)]
    have hpb1 := posBlock1_free (info.face = FACING_LEFT) info b1 b2
      b2.velocity.x info.share1 hnx1 hsl1 hbr1 hbl2 hbr2
    have hpb2 := posBlock2_free (info.face = FACING_LEFT) info
      ({ b1 with y := b1.y + b1.getMoveX info.share1 }) b2
      b1.velocity.x info.share2 hv hsl2 hbr2 hbl1 hbr1
    have hbx1 :
        ¬({ b1 with y := b1.y + b1.getMoveX info.share1 } : Body).isBlockedX := by
      simp [Body.isBlockedX, Body.isBlockedLeft, Body.isBlockedRight,
        hbl1, hbr1]
    have hbx2 :
        ¬({ b2 with y := b2.y + b2.getMoveX info.share2 } : Body).isBlockedX := by
      simp [Body.isBlockedX, Body.isBlockedLeft, Body.isBlockedRight,
        hbl2, hbr2]
    have hsc1 : sleepCheck
        ({ b1 with y := b1.y + b1.getMoveX info.share1 }) b2.velocity.x =
        ({ b1 with y := b1.y + b1.getMoveX info.share1 }, b2.velocity.x) := by
      simp [sleepCheck, hsl1]
    have hsc2 : sleepCheck
        ({ b2 with y := b2.y + b2.getMoveX info.share2 }) b1.velocity.x =
        ({ b2 with y := b2.y + b2.getMoveX info.share2 }, b1.velocity.x) := by
      simp [sleepCheck, hsl2]
    rw [SeparateX_core _ _ _ _ _ hearly]
    simp only [sepVelocities, separateCore]
    rw [if_neg hdg]
    simp only [hres, hfd1, hfd2, hpb1, hpb2]
    rw [if_neg hbx1, if_neg hbx2]
    simp only [hsc1, hsc2]
  · intro hb1 hb2
    have hres0 : resolveVelocity (info.face = FACING_LEFT) b1 b2 = (0, 0) := by
      rw [resolveVelocity_equal_mass _ b1 b2 hmov1 hmov2 hm, hb1, hb2, hx,
        h05]
      simp only [Prod.mk.injEq]
      constructor <;> ring
    have hq1 := posBlock1_zero_keeps (info.face = FACING_LEFT) info b1 b2
      info.share1 hbl2 hbr2
    have hqbl :
        (posBlock1 (info.face = FACING_LEFT) info b1 b2 0 info.share1).1.blockedLeft
          = false := by
      rw [hq1.2.1, hbl1]
    have hqbr :
        (posBlock1 (info.face = FACING_LEFT) info b1 b2 0 info.share1).1.blockedRight
          = false := by
      rw [hq1.2.2.1, hbr1]
    have hq2 := posBlock2_zero_keeps (info.face = FACING_LEFT) info
      ((posBlock1 (info.face = FACING_LEFT) info b1 b2 0 info.share1).1) b2
      info.share2 hqbl hqbr
    have hbx1 :
        ¬(posBlock1 (info.face = FACING_LEFT) info b1 b2 0 info.share1).1.isBlockedX := by
      simp [Body.isBlockedX, Body.isBlockedLeft, Body.isBlockedRight,
        hqbl, hqbr]
    have hbx2 :
        ¬(posBlock2 (info.face = FACING_LEFT) info
            ((posBlock1 (info.face = FACING_LEFT) info b1 b2 0 info.share1).1)
            b2 0 info.share2).1.isBlockedX := by
      simp [Body.isBlockedX, Body.isBlockedLeft, Body.isBlockedRight,
        hq2.2.1, hq2.2.2.1, hbl2, hbr2]
    have hslq1 :
        (posBlock1 (info.face = FACING_LEFT) info b1 b2 0 info.share1).1.sleeping
          = false := by
      rw [hq1.2.2.2, hsl1]
    have hslq2 :
        (posBlock2 (info.face = FACING_LEFT) info
            ((posBlock1 (info.face = FACING_LEFT) info b1 b2 0 info.share1).1)
            b2 0 info.share2).1.sleeping = false := by
      rw [hq2.2.2.2, hsl2]
    have hsc1 : sleepCheck
        (posBlock1 (info.face = FACING_LEFT) info b1 b2 0 info.share1).1 0 =
        ((posBlock1 (info.face = FACING_LEFT) info b1 b2 0 info.share1).1, 0) := by
      simp [sleepCheck, hslq1]
    have hsc2 : sleepCheck
        (posBlock2 (info.face = FACING_LEFT) info
          ((posBlock1 (info.face = FACING_LEFT) info b1 b2 0 info.share1).1)
          b2 0 info.share2).1 0 =
        ((posBlock2 (info.face = FACING_LEFT) info
          ((posBlock1 (info.face = FACING_LEFT) info b1 b2 0 info.share1).1)
          b2 0 info.share2).1, 0) := by
      simp [sleepCheck, hslq2]
    rw [SeparateX_core _ _ _ _ _ hearly]
    simp only [sepVelocities, separateCore]
    rw [if_neg hdg]
    simp only [hres0, flipDamp_zero]
    rw [hq1.1, if_neg hbx1, hq2.1, if_neg hbx2]
    simp only [hsc1, hsc2]

/-- A moving body for the bounce-1 swap sample. -/
def swapA : Body := { baseBody with velocity := ⟨2, 0⟩, bounce := ⟨1, 0⟩ }

/-- The opposite-moving partner for the bounce-1 swap sample. -/
def swapB : Body :=
  { baseBody with id := 2, velocity := ⟨-2, 0⟩, bounce := ⟨1, 0⟩ }

/-- A speed-2 mover whose threshold 5 exceeds its speed. -/
def swapC : Body :=
  { baseBody with
    velocity := ⟨2, 0⟩, bounce := ⟨1, 0⟩, minVelocity := ⟨5, 0⟩ }

/-- The opposite-moving partner of `swapC`, same threshold. -/
def swapD : Body :=
  { baseBody with
    id := 2, velocity := ⟨-2, 0⟩, bounce := ⟨1, 0⟩, minVelocity := ⟨5, 0⟩ }

/-- C9, counterexample: equal masses, velocities 2 and -2, bounce 1 on
both, both satisfying the moving predicate and undergoing separation,
yet the committed velocities are (0, 0), not the swapped pair
(-2, 2): both reversed velocities fall under the minimum-velocity
threshold 5 and are flip-flop damped to zero. -/
theorem equal_mass_swap_damped :
    sepVelocities (SeparateX (some 0) probeShare4 swapC swapD false) =
      some (0, 0) ∧
    sepVelocities (SeparateX (some 0) probeShare4 swapC swapD false) ≠
      some (swapD.velocity.x, swapC.velocity.x) := by
  have he : sepVelocities (SeparateX (some 0) probeShare4 swapC swapD false) =
      some (0, 0) := by
    rw [SeparateX_core _ _ _ _ _
      (by norm_num [earlyExitCond, probeShare4, swapC, swapD,
        baseBody, DYNAMIC_BODY, STATIC_BODY])]
    norm_num [sepVelocities, separateCore, resolveVelocity, flipDamp,
      posBlock1, posBlock2, sleepCheck, Body.movingX, Body.isBlockedLeft,
      Body.isBlockedRight, Body.isBlockedX, Body.getMoveX, Body.wake,
      Body.setBlockedLeft, Body.setBlockedRight, FACING_LEFT, FACING_RIGHT,
      probeShare4, swapC, swapD, baseBody, abs_neg, abs_two]
  refine ⟨he, ?_⟩
  rw [he]
  simp only [swapC, swapD, baseBody, ne_eq, Option.some.injEq,
    Prod.mk.injEq]
  norm_num

theorem equal_mass_opposite_swap_w :
    sepVelocities (SeparateX (some 1) probeShare4 swapA swapB false) =
      some (-2, 2) := by
  have h := (equal_mass_opposite_swap 1 probeShare4 swapA swapB
    (by simp [probeShare4])
    (by simp [swapA, baseBody]) (by simp [swapB, baseBody])
    (by simp [swapA, baseBody]) (by simp [swapB, baseBody])
    (by simp [swapA, baseBody]) (by simp [swapB, baseBody])
    (by simp [swapA, swapB, baseBody])
    (by norm_num [swapA, swapB, baseBody])
    (by norm_num [swapA, baseBody])
    (by simp [swapA, baseBody]) (by simp [swapA, baseBody])
    (by simp [swapB, baseBody]) (by simp [swapB, baseBody])
    (by simp [swapA, baseBody]) (by simp [swapB, baseBody])
    (by norm_num [probeShare4])).1
    (by simp [swapA, baseBody]) (by simp [swapB, baseBody])
    (by simp only [swapA, baseBody]; exact abs_nonneg _)
    (by simp only [swapB, swapA, baseBody]; exact abs_nonneg _)
  simpa [swapA, swapB, baseBody] using h

/-- A leftward mover whose post-impact nudge falls under its
minimum-velocity threshold. -/
def flipMover : Body :=
  { baseBody with
    velocity := ⟨-5, 0⟩, bounce := ⟨1, 0⟩, minVelocity := ⟨3, 0⟩ }

/-- A probe result with overlap 2 apportioned entirely to body 1. -/
def probeShare2 : CollisionInfo :=
  { overlapY := 2, face := FACING_LEFT, intersects := true,
    share1 := 2, share2 := 0 }

/-- C6, counterexample: a moving body contacting a rideable stationary
body receives the unit nudge, but flip-flop damping zeroes it before
commit (its threshold is 3), so the committed velocity is 0, which does
not have unit magnitude. -/
theorem rideable_nudge_flip_damped :
    SeparateX (some 0) probeShare2 flipMover ridePlatform false =
      Except.ok ⟨{ flipMover with y := 2, velocity := ⟨0, 0⟩ },
        ridePlatform, True⟩ ∧
    ¬(|(0:ℝ)| = 1) := by
  constructor
  · rw [SeparateX_core _ _ _ _ _
      (by norm_num [earlyExitCond, probeShare2, flipMover, ridePlatform,
        baseBody, DYNAMIC_BODY, STATIC_BODY])]
    norm_num [separateCore, resolveVelocity, flipDamp, posBlock1, posBlock2,
      sleepCheck, Body.movingX, Body.isBlockedLeft, Body.isBlockedRight,
      Body.isBlockedX, Body.getMoveX, Body.wake, Body.setBlockedLeft,
      Body.setBlockedRight, FACING_LEFT, FACING_RIGHT, probeShare2,
      flipMover, ridePlatform, baseBody, abs_one]
  · simp

/-- A body at (3, 10) moving left, with full bounce. -/
def posBody1 : Body :=
  { baseBody with x := 3, y := 10, velocity := ⟨-5, 0⟩, bounce := ⟨1, 0⟩ }

/-- A stationary body at rest outside physics control. -/
def idleBody : Body := { baseBody with id := 2, y := 20, moves := false }

/-- C1, evaluation at the failing input: body 1 resolves to velocity 5
(nonzero) on a left-face contact with the other body not blocked left,
and the position correction lands on the y coordinate (10 becomes
10 + 4, the apportioned share) while the x coordinate stays 3
untouched. -/
theorem position_correction_moves_y_not_x :
    SeparateX (some 0) probeShare4 posBody1 idleBody false =
      Except.ok ⟨{ posBody1 with y := 14, velocity := ⟨5, 0⟩ },
        idleBody, True⟩ := by
  rw [SeparateX_core _ _ _ _ _
    (by norm_num [earlyExitCond, probeShare4, posBody1, idleBody,
      baseBody, DYNAMIC_BODY, STATIC_BODY])]
  norm_num [separateCore, resolveVelocity, flipDamp, posBlock1, posBlock2,
    sleepCheck, Body.movingX, Body.isBlockedLeft, Body.isBlockedRight,
    Body.isBlockedX, Body.getMoveX, Body.wake, Body.setBlockedLeft,
    Body.setBlockedRight, FACING_LEFT, FACING_RIGHT, probeShare4,
    posBody1, idleBody, baseBody, abs_nonneg]

/-- A stationary body under physics control, blocked on its left face
only. -/
def statBody1 : Body :=
  { baseBody with y := 10, blockedLeft := true, moves := true }

/-- The mirrored-roles counterpart of `statBody1`, used as body 2. -/
def statBody2 : Body :=
  { baseBody with id := 3, y := 20, blockedLeft := true, moves := true }

/-- A bystander body out of physics control, used as body 1. -/
def idleBody1 : Body := { baseBody with y := 10, moves := false }

/-- The right-face variant of `probeShare4`. -/
def probeShare4R : CollisionInfo := { probeShare4 with face := FACING_RIGHT }

/-- A probe result apportioning the overlap entirely to body 2. -/
def probeShareB : CollisionInfo :=
  { overlapY := 2, face := FACING_LEFT, intersects := true,
    share1 := 0, share2 := 4 }

/-- The right-face variant of `probeShareB`. -/
def probeShareBR : CollisionInfo := { probeShareB with face := FACING_RIGHT }

/-- C3, evaluation at the failing inputs: a stationary body 1 blocked
only on its left face receives the position correction on BOTH contact
faces (runs one and two: y goes 10 to 14 on the left face and on the
right face alike, both guarded by the blocked-right test), while
body 2 in the mirrored role with the identical blocked state receives
it on exactly one face (runs three and four: y goes 20 to 24 on the
left face but stays 20 on the right face, where the guard tests
blocked-left): the two contact-face branches are not mirror images for
body 1. -/
theorem stationary_guard_not_mirrored :
    SeparateX (some 0) probeShare4 statBody1 idleBody false =
      Except.ok ⟨{ statBody1 with y := 14 }, idleBody, True⟩ ∧
    SeparateX (some 0) probeShare4R statBody1 idleBody false =
      Except.ok ⟨{ statBody1 with y := 14 }, idleBody, True⟩ ∧
    SeparateX (some 0) probeShareB idleBody1 statBody2 false =
      Except.ok ⟨idleBody1, { statBody2 with y := 24 }, True⟩ ∧
    SeparateX (some 0) probeShareBR idleBody1 statBody2 false =
      Except.ok ⟨idleBody1, statBody2, True⟩ := by
  refine ⟨?_, ?_, ?_, ?_⟩ <;>
  · rw [SeparateX_core _ _ _ _ _
      (by norm_num [earlyExitCond, probeShare4, probeShare4R, probeShareB,
        probeShareBR, statBody1, statBody2, idleBody, idleBody1,
        baseBody, DYNAMIC_BODY, STATIC_BODY])]
    norm_num [separateCore, resolveVelocity, flipDamp, posBlock1, posBlock2,
      sleepCheck, Body.movingX, Body.isBlockedLeft, Body.isBlockedRight,
      Body.isBlockedX, Body.getMoveX, Body.wake, Body.setBlockedLeft,
      Body.setBlockedRight, FACING_LEFT, FACING_RIGHT, probeShare4,
      probeShare4R, probeShareB, probeShareBR, statBody1, statBody2,
      idleBody, idleBody1, baseBody]

end

end Arcade
